import Mathlib

/-!
Verification development for the grpc-socks client relay (`client/proxy.go`).

Bytes are modelled as `Nat`, byte strings as `List Nat`.  The two handler
functions `tcpHandler` and `udpHandler` are embedded as trace-producing
functions over an environment of externally determined outcomes: each
`conn.Read` / `stream.Recv` / `udpLn.ReadFrom` result and each possible
`Send`/`Write` failure is an input event, and the embedding returns the
ordered list of observable actions (socket writes, stream sends, pool
operations, error-log lines) the Go code performs on that input.
The two TCP copy directions touch no shared mutable state besides the
socket and stream themselves, so each is a per-direction trace.  The UDP
relay's read loop spawns one goroutine per datagram, and those goroutines
share the unsynchronized `first` flag and `netInfo` record; that part is
embedded as a small-step interleaving semantics in which a schedule chooses
which task performs its next atomic shared access.
-/

namespace GrpcSocks

/-- Constant `leakyBufSize = 4108` from `client/proxy.go`. -/
def leakyBufSize : Nat := 4108

/-- Constant `maxNBuf = 2048` from `client/proxy.go`. -/
def maxNBuf : Nat := 2048

/-- The fixed SOCKS5 CONNECT success reply written by `tcpHandler`:
`conn.Write([]byte{0x05, 0x00, 0x00, 0x01, 0x00, 0x00, 0x00, 0x00, 0x00, 0x00})`. -/
def socks5ConnectReply : List Nat := [5, 0, 0, 1, 0, 0, 0, 0, 0, 0]

/-- Go `int16(p)` narrowing of a nonnegative integer port: two's-complement
wrap-around into the range [-32768, 32768). -/
def int16OfNat (p : Nat) : Int :=
  if p % 65536 < 32768 then ((p % 65536 : Nat) : Int) else ((p % 65536 : Nat) : Int) - 65536

/-- Encoding `binary.Write(w, binary.BigEndian, v)` for an int16 value `v`: the two
bytes of the value's 16-bit two's-complement pattern, most significant first. -/
def bigEndian16 (v : Int) : List Nat :=
  [(v % 65536).toNat / 256, (v % 65536).toNat % 256]

/-- The UDP ASSOCIATE reply built by `udpHandler` (lines 170-179): header
`0x05 0x00 0x00 0x01`, then the first 6 bytes of a buffer holding four zero
host bytes followed by the big-endian int16 narrowing of the bound port. -/
def udpAssociateReply (port : Nat) : List Nat :=
  [5, 0, 0, 1] ++ (([0, 0, 0, 0] ++ bigEndian16 (int16OfNat port)).take 6)

/-- One iteration's worth of environment input to the TCP upstream loop
(lines 125-148): `chunk` is the byte string returned by `conn.Read(buff)`
(`n = chunk.length`), `rerr` records whether that read also returned a
non-nil error, and `serr` records whether `stream.Send` of this chunk's
frame fails (relevant only when the chunk is nonempty). -/
structure UpEvent where
  chunk : List Nat
  rerr : Bool
  serr : Bool
deriving DecidableEq

/-- One `stream.Recv` outcome seen by the TCP downstream goroutine
(lines 100-120): a frame with payload `data` (after which `conn.Write` either
succeeds or fails with `werr`, the failing error message containing
"use of closed network connection" iff `werrClosedMsg`), a clean `io.EOF`
end-of-stream, or another receive error (with `ctxCanceled` recording whether
`ctx.Err() == context.Canceled` at that moment). -/
inductive RecvEvent where
  | frame (data : List Nat) (werr : Bool) (werrClosedMsg : Bool)
  | recvEOF
  | recvErr (ctxCanceled : Bool)
deriving DecidableEq

/-- Which `log.Errorf` call a logged error line came from in `tcpHandler`. -/
inductive LogTag where
  | getReqErr
  | grpcErr
  | streamErr
  | firstSendErr
  | sendErr
  | recvErr
  | writeErr
deriving DecidableEq

/-- An observable action of `tcpHandler` or its downstream goroutine. -/
inductive TcpEv where
  | sockWrite (data : List Nat)
  | grpcAcquire
  | streamOpen
  | streamSend (data : List Nat)
  | logError (tag : LogTag)
  | poolGet
  | poolPut
  | streamCloseSend
  | cancelCtx
deriving DecidableEq

/-- Trace of the TCP upstream loop (lines 125-148) on a list of read events.
Per iteration: `n, err := conn.Read(buff)`; if `n > 0` the chunk is sent as a
frame and `err` is overwritten by the send's result (so a read error arriving
together with data is swallowed when the send succeeds); a failed send logs
once and breaks; then `if err != nil` breaks (without logging). -/
def tcpHandlerUpstream : List UpEvent → List TcpEv
  | [] => []
  | e :: es =>
    if e.chunk.isEmpty then
      if e.rerr then [] else tcpHandlerUpstream es
    else
      if e.serr then [TcpEv.logError LogTag.sendErr]
      else TcpEv.streamSend e.chunk :: tcpHandlerUpstream es

/-- Bytes the upstream loop actually reads from the client socket before it
exits: every processed chunk, in order (a chunk whose send fails was still
read; a read error alongside a nonempty chunk does not stop the reads because
the send's nil result overwrites it). -/
def tcpHandlerReads : List UpEvent → List Nat
  | [] => []
  | e :: es =>
    if e.chunk.isEmpty then
      if e.rerr then [] else tcpHandlerReads es
    else
      if e.serr then e.chunk else e.chunk ++ tcpHandlerReads es

/-- True when the upstream loop processes the whole event list without
breaking out. -/
def upstreamNoBreak : List UpEvent → Bool
  | [] => true
  | e :: es =>
    if e.chunk.isEmpty then
      if e.rerr then false else upstreamNoBreak es
    else
      if e.serr then false else upstreamNoBreak es

/-- Trace of the TCP downstream goroutine's loop (lines 100-118):
`stream.Recv` errors break, logging only when the error is neither `io.EOF`
nor accompanied by a canceled session context; `conn.Write` failures break,
logging only when the message does not contain
"use of closed network connection". A failed write delivers no bytes. -/
def tcpHandlerDownstream : List RecvEvent → List TcpEv
  | [] => []
  | RecvEvent.recvEOF :: _ => []
  | RecvEvent.recvErr c :: _ => if c then [] else [TcpEv.logError LogTag.recvErr]
  | RecvEvent.frame d we wc :: es =>
    if we then
      if wc then [] else [TcpEv.logError LogTag.writeErr]
    else
      TcpEv.sockWrite d :: tcpHandlerDownstream es

/-- Frame payloads the downstream loop receives from the stream before it
exits (a frame whose socket write then fails was still received). -/
def recvdFrames : List RecvEvent → List (List Nat)
  | [] => []
  | RecvEvent.recvEOF :: _ => []
  | RecvEvent.recvErr _ :: _ => []
  | RecvEvent.frame d we _ :: es => if we then [d] else d :: recvdFrames es

/-- Environment of a whole `tcpHandler` run: outcomes of the setup steps in
program order (`lib.GetReqAddr`, the CONNECT reply write, `gRPCClient()`,
`client.Pipeline`, the first-frame `stream.Send`), the destination text
`addr.String()`, and the upstream loop's read events. -/
structure TcpEnv where
  getReqAddrOk : Bool
  addrStr : List Nat
  replyWriteOk : Bool
  grpcClientOk : Bool
  streamOk : Bool
  firstSendOk : Bool
  upEvents : List UpEvent

/-- Trace of the main goroutine of `tcpHandler` (lines 47-148): the guard
sequence of setup steps, then the destination first frame, then the pooled
buffer checkout, the upstream loop, and the deferred cleanup in LIFO order
(`leakyBuf.Put`, `stream.CloseSend`, `cancel`). -/
def tcpHandlerTrace (env : TcpEnv) : List TcpEv :=
  if !env.getReqAddrOk then [TcpEv.logError LogTag.getReqErr]
  else
    TcpEv.sockWrite socks5ConnectReply ::
      (if !env.replyWriteOk then []
       else
         TcpEv.grpcAcquire ::
           (if !env.grpcClientOk then [TcpEv.logError LogTag.grpcErr]
            else
              (TcpEv.streamOpen ::
                (if !env.streamOk then [TcpEv.logError LogTag.streamErr]
                 else
                   (TcpEv.streamSend env.addrStr ::
                     (if !env.firstSendOk then [TcpEv.logError LogTag.firstSendErr]
                      else
                        TcpEv.poolGet ::
                          (tcpHandlerUpstream env.upEvents ++ [TcpEv.poolPut])))
                   ++ [TcpEv.streamCloseSend]))
              ++ [TcpEv.cancelCtx]))

/-- The payloads of the frames a trace sends on the RPC stream, in order. -/
def sentPayloads (tr : List TcpEv) : List (List Nat) :=
  tr.filterMap fun e =>
    match e with
    | TcpEv.streamSend d => some d
    | _ => none

/-- The byte strings a trace writes to the client socket, in order. -/
def writtenPayloads (tr : List TcpEv) : List (List Nat) :=
  tr.filterMap fun e =>
    match e with
    | TcpEv.sockWrite d => some d
    | _ => none

/-- Number of error-log lines in a trace. -/
def errorLogCount (tr : List TcpEv) : Nat :=
  tr.countP fun e =>
    match e with
    | TcpEv.logError _ => true
    | _ => false

@[simp] lemma sentPayloads_nil : sentPayloads [] = [] := rfl

@[simp] lemma sentPayloads_cons_send (d : List Nat) (tr : List TcpEv) :
    sentPayloads (TcpEv.streamSend d :: tr) = d :: sentPayloads tr := rfl

@[simp] lemma sentPayloads_cons_log (t : LogTag) (tr : List TcpEv) :
    sentPayloads (TcpEv.logError t :: tr) = sentPayloads tr := rfl

@[simp] lemma writtenPayloads_nil : writtenPayloads [] = [] := rfl

@[simp] lemma writtenPayloads_cons_write (d : List Nat) (tr : List TcpEv) :
    writtenPayloads (TcpEv.sockWrite d :: tr) = d :: writtenPayloads tr := rfl

@[simp] lemma writtenPayloads_cons_log (t : LogTag) (tr : List TcpEv) :
    writtenPayloads (TcpEv.logError t :: tr) = writtenPayloads tr := rfl

/-- True when `conn.Write` succeeded for this event if it is a frame event. -/
def frameWriteOk : RecvEvent → Bool
  | RecvEvent.frame _ we _ => !we
  | _ => true

/-- A concrete all-successful TCP environment used by several witnesses. -/
def tcpEnvExample : TcpEnv :=
  ⟨true, [104, 58, 49], true, true, true, true,
    [UpEvent.mk [1, 2, 3] false false, UpEvent.mk [4, 5] false false,
      UpEvent.mk [] true false]⟩

/-- A concrete TCP environment whose CONNECT-reply write fails. -/
def tcpEnvNoReply : TcpEnv :=
  ⟨true, [104, 58, 49], false, true, true, true, []⟩

lemma sentPayloads_trace (env : TcpEnv) (h1 : env.getReqAddrOk = true)
    (h2 : env.replyWriteOk = true) (h3 : env.grpcClientOk = true)
    (h4 : env.streamOk = true) (h5 : env.firstSendOk = true) :
    sentPayloads (tcpHandlerTrace env)
      = env.addrStr :: sentPayloads (tcpHandlerUpstream env.upEvents) := by
  simp [tcpHandlerTrace, h1, h2, h3, h4, h5, sentPayloads, List.filterMap_append]

lemma upstream_sent_join (us : List UpEvent) (hs : ∀ e ∈ us, e.serr = false) :
    (sentPayloads (tcpHandlerUpstream us)).flatten = tcpHandlerReads us := by
  induction us with
  | nil => simp [tcpHandlerUpstream, tcpHandlerReads]
  | cons e es ih =>
    have hse : e.serr = false := hs e (List.mem_cons_self e es)
    have hrest : ∀ x ∈ es, x.serr = false := fun x hx => hs x (List.mem_cons_of_mem _ hx)
    by_cases hc : e.chunk.isEmpty
    · by_cases hr : e.rerr = true
      · simp [tcpHandlerUpstream, tcpHandlerReads, hc, hr]
      · simp only [Bool.not_eq_true] at hr
        simp [tcpHandlerUpstream, tcpHandlerReads, hc, hr, ih hrest]
    · simp [tcpHandlerUpstream, tcpHandlerReads, hc, hse, ih hrest]

/-- Claim C1: for every TCP session, the upstream direction preserves the
client's byte stream: for all sequences of chunks read from the client socket
(each of size at most the buffer size) on which no stream send fails, the
payloads of the frames sent on the RPC stream after the first (destination)
frame, concatenated in order, equal the bytes read from the client socket,
concatenated in order — no loss, no reordering, no duplication. -/
theorem claimC1 (env : TcpEnv) (h1 : env.getReqAddrOk = true)
    (h2 : env.replyWriteOk = true) (h3 : env.grpcClientOk = true)
    (h4 : env.streamOk = true) (h5 : env.firstSendOk = true)
    (hs : ∀ e ∈ env.upEvents, e.serr = false)
    (hlen : ∀ e ∈ env.upEvents, e.chunk.length ≤ leakyBufSize) :
    ((sentPayloads (tcpHandlerTrace env)).tail).flatten = tcpHandlerReads env.upEvents := by
  rw [sentPayloads_trace env h1 h2 h3 h4 h5]
  exact upstream_sent_join env.upEvents hs

/-- Witness for C1 on a concrete session reading [1,2,3] then [4,5] then a
final erroring empty read. -/
theorem claimC1_witness :
    ((sentPayloads (tcpHandlerTrace tcpEnvExample)).tail).flatten
      = tcpHandlerReads tcpEnvExample.upEvents :=
  claimC1 tcpEnvExample rfl rfl rfl rfl rfl (by decide) (by decide)

lemma downstream_written (ds : List RecvEvent) (h : ∀ e ∈ ds, frameWriteOk e = true) :
    writtenPayloads (tcpHandlerDownstream ds) = recvdFrames ds := by
  induction ds with
  | nil => simp [tcpHandlerDownstream, recvdFrames]
  | cons e es ih =>
    cases e with
    | recvEOF => simp [tcpHandlerDownstream, recvdFrames]
    | recvErr c =>
      cases c <;> simp [tcpHandlerDownstream, recvdFrames]
    | frame d we wc =>
      have hwe : we = false := by
        have := h _ (List.mem_cons_self _ es)
        simpa [frameWriteOk] using this
      have hrest : ∀ x ∈ es, frameWriteOk x = true :=
        fun x hx => h x (List.mem_cons_of_mem _ hx)
      subst hwe
      simp [tcpHandlerDownstream, recvdFrames, ih hrest]

/-- Claim C2: for every TCP session, the downstream direction preserves the
remote byte stream: for all sequences of frames received on the RPC stream
before end-of-stream or error, when no client-socket write fails, the bytes
written to the client socket equal the frame payloads, concatenated in
order. -/
theorem claimC2 (ds : List RecvEvent) (h : ∀ e ∈ ds, frameWriteOk e = true) :
    (writtenPayloads (tcpHandlerDownstream ds)).flatten = (recvdFrames ds).flatten := by
  rw [downstream_written ds h]

/-- Witness for C2 on a concrete stream delivering [1,2] and [3] and then
ending with io.EOF. -/
theorem claimC2_witness :
    (writtenPayloads (tcpHandlerDownstream
        [RecvEvent.frame [1, 2] false false, RecvEvent.frame [3] false false,
          RecvEvent.recvEOF])).flatten
      = (recvdFrames
        [RecvEvent.frame [1, 2] false false, RecvEvent.frame [3] false false,
          RecvEvent.recvEOF]).flatten :=
  claimC2 _ (by decide)

lemma upstream_trace_append (pre l : List UpEvent) (h : upstreamNoBreak pre = true) :
    tcpHandlerUpstream (pre ++ l) = tcpHandlerUpstream pre ++ tcpHandlerUpstream l := by
  induction pre with
  | nil => simp [tcpHandlerUpstream]
  | cons e es ih =>
    by_cases hc : e.chunk.isEmpty
    · by_cases hr : e.rerr = true
      · exfalso
        simp [upstreamNoBreak, hc, hr] at h
      · simp only [Bool.not_eq_true] at hr
        have hes : upstreamNoBreak es = true := by
          simpa [upstreamNoBreak, hc, hr] using h
        simp [tcpHandlerUpstream, hc, hr, ih hes]
    · by_cases hserr : e.serr = true
      · exfalso
        simp [upstreamNoBreak, hc, hserr] at h
      · simp only [Bool.not_eq_true] at hserr
        have hes : upstreamNoBreak es = true := by
          simpa [upstreamNoBreak, hc, hserr] using h
        simp [tcpHandlerUpstream, hc, hserr, ih hes]

/-- Claim C10: in the TCP upstream loop, when a client-socket read returns
n > 0 bytes together with an error (for example a final short read at EOF),
those n bytes are still sent as a frame on the stream (provided the send
itself does not fail), so the last short chunk is never dropped. -/
theorem claimC10 (pre rest : List UpEvent) (e : UpEvent)
    (hpre : upstreamNoBreak pre = true) (hne : e.chunk ≠ [])
    (hre : e.rerr = true) (hse : e.serr = false) :
    TcpEv.streamSend e.chunk ∈ tcpHandlerUpstream (pre ++ e :: rest) := by
  rw [upstream_trace_append pre (e :: rest) hpre]
  refine List.mem_append_right _ ?_
  have hc : e.chunk.isEmpty = false := by
    simp [List.isEmpty_iff, hne]
  simp [tcpHandlerUpstream, hc, hse]

/-- Witness for C10: a read returning bytes [7,8] together with an error,
after one clean read, still yields a frame [7,8] on the stream. -/
theorem claimC10_witness :
    TcpEv.streamSend [7, 8] ∈ tcpHandlerUpstream
      ([UpEvent.mk [9] false false] ++ UpEvent.mk [7, 8] true false :: []) :=
  claimC10 [UpEvent.mk [9] false false] [] (UpEvent.mk [7, 8] true false)
    (by decide) (by decide) rfl rfl

/-- Claim C9: for every TCP CONNECT session whose destination address parses
successfully, the fixed 10-byte SOCKS5 success reply is the very first
observable action, before any step of the remote leg (gRPC client
acquisition, stream opening, first-frame send) is attempted; and if the
reply write fails, no remote-leg step is attempted at all. -/
theorem claimC9 (env : TcpEnv) (h : env.getReqAddrOk = true) :
    (tcpHandlerTrace env).head? = some (TcpEv.sockWrite socks5ConnectReply)
      ∧ (env.replyWriteOk = false →
          tcpHandlerTrace env = [TcpEv.sockWrite socks5ConnectReply]) := by
  constructor
  · simp [tcpHandlerTrace, h]
  · intro hw
    simp [tcpHandlerTrace, h, hw]

/-- Witness for C9 on a concrete environment whose reply write fails: the
trace is exactly the success reply and nothing else. -/
theorem claimC9_witness :
    (tcpHandlerTrace tcpEnvNoReply).head? = some (TcpEv.sockWrite socks5ConnectReply)
      ∧ (tcpEnvNoReply.replyWriteOk = false →
          tcpHandlerTrace tcpEnvNoReply = [TcpEv.sockWrite socks5ConnectReply]) :=
  claimC9 tcpEnvNoReply rfl

/-- Recognizer for the pooled-buffer checkout action. -/
def isPoolGet : TcpEv → Bool
  | TcpEv.poolGet => true
  | _ => false

/-- Recognizer for the pooled-buffer return action. -/
def isPoolPut : TcpEv → Bool
  | TcpEv.poolPut => true
  | _ => false

lemma upstream_no_pool (us : List UpEvent) :
    (tcpHandlerUpstream us).countP isPoolGet = 0
      ∧ (tcpHandlerUpstream us).countP isPoolPut = 0 := by
  induction us with
  | nil => simp [tcpHandlerUpstream]
  | cons e es ih =>
    by_cases hc : e.chunk.isEmpty
    · by_cases hr : e.rerr = true
      · simp [tcpHandlerUpstream, hc, hr]
      · simp only [Bool.not_eq_true] at hr
        simpa [tcpHandlerUpstream, hc, hr] using ih
    · by_cases hserr : e.serr = true
      · simp [tcpHandlerUpstream, hc, hserr, isPoolGet, isPoolPut]
      · simp only [Bool.not_eq_true] at hserr
        simpa [tcpHandlerUpstream, hc, hserr, isPoolGet, isPoolPut,
          List.countP_cons] using ih

lemma downstream_no_pool (ds : List RecvEvent) :
    (tcpHandlerDownstream ds).countP isPoolGet = 0
      ∧ (tcpHandlerDownstream ds).countP isPoolPut = 0 := by
  induction ds with
  | nil => simp [tcpHandlerDownstream]
  | cons e es ih =>
    cases e with
    | recvEOF => simp [tcpHandlerDownstream]
    | recvErr c => cases c <;> simp [tcpHandlerDownstream, isPoolGet, isPoolPut]
    | frame d we wc =>
      cases we
      · simpa [tcpHandlerDownstream, isPoolGet, isPoolPut, List.countP_cons] using ih
      · cases wc <;> simp [tcpHandlerDownstream, isPoolGet, isPoolPut]

/-- Claim C5: for every TCP session that reaches its copy loop, exactly one
buffer is checked out from the buffer pool for the whole session lifetime and
it is returned exactly once when the session exits, on every exit path (clean
end-of-stream, read error, or send error, over all possible upstream event
lists); the downstream goroutine performs no pool operation at all. -/
theorem claimC5 (env : TcpEnv) (h1 : env.getReqAddrOk = true)
    (h2 : env.replyWriteOk = true) (h3 : env.grpcClientOk = true)
    (h4 : env.streamOk = true) (h5 : env.firstSendOk = true) :
    (tcpHandlerTrace env).countP isPoolGet = 1
      ∧ (tcpHandlerTrace env).countP isPoolPut = 1
      ∧ ∀ ds : List RecvEvent,
          (tcpHandlerDownstream ds).countP isPoolGet = 0
            ∧ (tcpHandlerDownstream ds).countP isPoolPut = 0 := by
  refine ⟨?_, ?_, fun ds => downstream_no_pool ds⟩
  · have hup := (upstream_no_pool env.upEvents).1
    simp [tcpHandlerTrace, h1, h2, h3, h4, h5, List.countP_cons, List.countP_append,
      isPoolGet, isPoolPut, hup]
  · have hup := (upstream_no_pool env.upEvents).2
    simp [tcpHandlerTrace, h1, h2, h3, h4, h5, List.countP_cons, List.countP_append,
      isPoolGet, isPoolPut, hup]

/-- Witness for C5 on a concrete session that ends with an erroring read. -/
theorem claimC5_witness :
    (tcpHandlerTrace tcpEnvExample).countP isPoolGet = 1
      ∧ (tcpHandlerTrace tcpEnvExample).countP isPoolPut = 1
      ∧ ∀ ds : List RecvEvent,
          (tcpHandlerDownstream ds).countP isPoolGet = 0
            ∧ (tcpHandlerDownstream ds).countP isPoolPut = 0 :=
  claimC5 tcpEnvExample rfl rfl rfl rfl rfl

/-- The downstream loop terminates with an error the code logs: a receive
error that is neither io.EOF nor seen while the session context is canceled,
or a write error whose message does not contain
"use of closed network connection". -/
def downstreamLoggable : List RecvEvent → Bool
  | [] => false
  | RecvEvent.recvEOF :: _ => false
  | RecvEvent.recvErr c :: _ => !c
  | RecvEvent.frame _ we wc :: es => if we then !wc else downstreamLoggable es

/-- The upstream loop terminates with a failed stream send (the only error it
ever logs; client-read errors are never logged there). -/
def upstreamSendErrHit : List UpEvent → Bool
  | [] => false
  | e :: es =>
    if e.chunk.isEmpty then
      if e.rerr then false else upstreamSendErrHit es
    else
      if e.serr then true else upstreamSendErrHit es

/-- Claim C6: in a TCP session, a client-write error whose message contains
"use of closed network connection", a client-read error (in particular one
with that message), a stream receive ending with io.EOF, and a stream receive
error while the session context is canceled are all suppressed from error
logging; any other stream-receive, client-write, or stream-send error in
either direction is logged exactly once — the log count of each direction is
1 exactly when it ended with an unsuppressed error, else 0. -/
theorem claimC6 (ds : List RecvEvent) (us : List UpEvent) :
    errorLogCount (tcpHandlerDownstream ds) = (if downstreamLoggable ds then 1 else 0)
      ∧ errorLogCount (tcpHandlerUpstream us) = (if upstreamSendErrHit us then 1 else 0) := by
  constructor
  · induction ds with
    | nil => simp [tcpHandlerDownstream, downstreamLoggable, errorLogCount]
    | cons e es ih =>
      cases e with
      | recvEOF => simp [tcpHandlerDownstream, downstreamLoggable, errorLogCount]
      | recvErr c =>
        cases c <;> simp [tcpHandlerDownstream, downstreamLoggable, errorLogCount]
      | frame d we wc =>
        cases we
        · simpa [tcpHandlerDownstream, downstreamLoggable, errorLogCount,
            List.countP_cons] using ih
        · cases wc <;> simp [tcpHandlerDownstream, downstreamLoggable, errorLogCount]
  · induction us with
    | nil => simp [tcpHandlerUpstream, upstreamSendErrHit, errorLogCount]
    | cons e es ih =>
      by_cases hc : e.chunk.isEmpty
      · by_cases hr : e.rerr = true
        · simp [tcpHandlerUpstream, upstreamSendErrHit, errorLogCount, hc, hr]
        · simp only [Bool.not_eq_true] at hr
          simpa [tcpHandlerUpstream, upstreamSendErrHit, errorLogCount, hc, hr] using ih
      · by_cases hserr : e.serr = true
        · simp [tcpHandlerUpstream, upstreamSendErrHit, errorLogCount, hc, hserr]
        · simp only [Bool.not_eq_true] at hserr
          simpa [tcpHandlerUpstream, upstreamSendErrHit, errorLogCount, hc, hserr,
            List.countP_cons] using ih

/-- Program counter of one per-datagram goroutine spawned by `udpHandler`'s
read loop (lines 236-270), at the granularity of its individual accesses to
the shared mutable state (`first`, `netInfo.DSTAddr`) and its stream sends:
`start` is about to execute `netInfo.DSTAddr = dst.String()` (line 250);
`checkFirst` is about to read the shared `first` flag (line 254);
`setFirst` has observed `first == false` and is about to write
`first = true` (line 255) — the check and the set are two separate
unsynchronized accesses; `sendDst` is about to send a frame whose payload is
the value of `netInfo.DSTAddr` read at send time (line 256); `sendData` is
about to send the datagram's data frame (line 265); `done` has returned. -/
inductive GoPC where
  | start
  | checkFirst
  | setFirst
  | sendDst
  | sendData
  | done
deriving DecidableEq

/-- One inbound datagram in its parsed view: `dst` is the textual
destination `lib.SplitAddr(buff[3:n]).String()` (lines 248-250) and `data`
is the payload `buff[3+len(dst):n]` (line 263). -/
structure UdpDgramIn where
  dst : List Nat
  data : List Nat
deriving DecidableEq

/-- One spawned per-datagram goroutine: its datagram's parsed fields and its
program counter.  The model is generous to the code in giving each goroutine
a private immutable copy of its datagram's bytes, ignoring the additional
race on the single `buff` backing array (line 228, reused by every
`ReadFrom`; only passed, not copied, at line 236). -/
structure UdpTask where
  dst : List Nat
  data : List Nat
  pc : GoPC
deriving DecidableEq

/-- The state shared by `udpHandler`'s read loop and all of its per-datagram
goroutines: the `first` flag (line 229), `netInfo.DSTAddr` (lines 204, 250,
256; the empty string initially), and the ordered list of frame payloads
sent on the RPC stream so far (each `stream.Send` taken as one atomic append
and assumed to succeed — again generous to the code). -/
structure UdpShared where
  first : Bool
  dstAddr : List Nat
  frames : List (List Nat)
deriving DecidableEq

/-- A configuration of the UDP relay: the shared state, the datagrams not
yet returned by `udpLn.ReadFrom`, and the spawned goroutines in spawn
order. -/
structure UdpConfig where
  shared : UdpShared
  queue : List UdpDgramIn
  tasks : List UdpTask
deriving DecidableEq

/-- One atomic step of a per-datagram goroutine's body (lines 248-269),
following the program counter: write `netInfo.DSTAddr`; read `first`
(skipping straight to the data send when it is already true); write `first`;
send the destination frame with the payload `[]byte(netInfo.DSTAddr)` as it
is at send time; send the data frame. -/
def goBodyStep (s : UdpShared) (t : UdpTask) : UdpShared × UdpTask :=
  match t.pc with
  | GoPC.start =>
    (UdpShared.mk s.first t.dst s.frames, UdpTask.mk t.dst t.data GoPC.checkFirst)
  | GoPC.checkFirst =>
    if s.first then (s, UdpTask.mk t.dst t.data GoPC.sendData)
    else (s, UdpTask.mk t.dst t.data GoPC.setFirst)
  | GoPC.setFirst =>
    (UdpShared.mk true s.dstAddr s.frames, UdpTask.mk t.dst t.data GoPC.sendDst)
  | GoPC.sendDst =>
    (UdpShared.mk s.first s.dstAddr (s.frames ++ [s.dstAddr]),
      UdpTask.mk t.dst t.data GoPC.sendData)
  | GoPC.sendData =>
    (UdpShared.mk s.first s.dstAddr (s.frames ++ [t.data]),
      UdpTask.mk t.dst t.data GoPC.done)
  | GoPC.done => (s, t)

/-- A scheduling decision: let the read loop perform its next
`udpLn.ReadFrom` and spawn that datagram's goroutine (lines 231, 236), or
let the goroutine with the given spawn index perform one atomic step.  Go
guarantees nothing about the relative progress of these tasks, so any
schedule is realizable. -/
inductive UdpSched where
  | readFrom
  | goRun (i : Nat)
deriving DecidableEq

/-- One step of the whole UDP relay under a scheduling decision.  The
`netInfo.BNDAddr` update (line 234) is omitted: no modelled observable
depends on it.  A `readFrom` with an empty queue and a `goRun` of a finished
or absent task do nothing. -/
def udpStep (c : UdpConfig) : UdpSched → UdpConfig
  | UdpSched.readFrom =>
    match c.queue with
    | [] => c
    | d :: rest =>
      UdpConfig.mk c.shared rest (c.tasks ++ [UdpTask.mk d.dst d.data GoPC.start])
  | UdpSched.goRun i =>
    match c.tasks[i]? with
    | none => c
    | some t =>
      let p := goBodyStep c.shared t
      UdpConfig.mk p.1 c.queue (c.tasks.set i p.2)

/-- Run the UDP relay from its initial state (`first := false`, line 229; an
empty `netInfo`, line 204; nothing sent) on a queue of inbound datagrams
under a schedule. -/
def udpRun (ds : List UdpDgramIn) (sched : List UdpSched) : UdpConfig :=
  sched.foldl udpStep (UdpConfig.mk (UdpShared.mk false [] []) ds [])

/-- First inbound datagram of the failing association: destination text
"d:5" (bytes [100, 58, 53]) with data X = [1, 2]. -/
def udpDgramA : UdpDgramIn := UdpDgramIn.mk [100, 58, 53] [1, 2]

/-- Second inbound datagram: the same destination with data Y = [3, 4]. -/
def udpDgramB : UdpDgramIn := UdpDgramIn.mk [100, 58, 53] [3, 4]

/-- A realizable schedule for two back-to-back datagrams in which the second
goroutine runs between the first goroutine's `first = true` write and its
destination send: the second sees `first == true`, skips the destination,
and its data frame reaches the stream before the destination frame does. -/
def udpSchedDataFirst : List UdpSched :=
  [UdpSched.readFrom, UdpSched.readFrom, UdpSched.goRun 0, UdpSched.goRun 0,
    UdpSched.goRun 0, UdpSched.goRun 1, UdpSched.goRun 1, UdpSched.goRun 1,
    UdpSched.goRun 0, UdpSched.goRun 0]

/-- A realizable schedule for two back-to-back datagrams in which both
goroutines read `first == false` before either writes it, so both send a
destination frame. -/
def udpSchedDoubleDst : List UdpSched :=
  [UdpSched.readFrom, UdpSched.readFrom, UdpSched.goRun 0, UdpSched.goRun 1,
    UdpSched.goRun 0, UdpSched.goRun 1, UdpSched.goRun 0, UdpSched.goRun 1,
    UdpSched.goRun 0, UdpSched.goRun 1, UdpSched.goRun 0, UdpSched.goRun 1]

/-- Claim C3 is right about the intent but the code does not guarantee it on
the UDP path (code bug): the invariant says the first frame sent on a newly
opened stream always carries the textual destination and all later frames
carry raw application bytes, never the destination.  Because the `first`
flag is checked and set without synchronization by concurrently spawned
per-datagram goroutines (lines 254-255), the interleaving `udpSchedDataFirst`
of two back-to-back datagrams — the second goroutine running between the
first goroutine's flag write and its destination send — makes the stream
observe the data frame [3,4] first and the destination "d:5" only second:
both halves of the invariant fail.  (The TCP path, by contrast, sends the
destination synchronously before its copy loop and does conform.) -/
theorem claimC3 :
    (udpRun [udpDgramA, udpDgramB] udpSchedDataFirst).shared.frames
        = [[3, 4], [100, 58, 53], [1, 2]]
      ∧ ((udpRun [udpDgramA, udpDgramB] udpSchedDataFirst).shared.frames).head?
          ≠ some [100, 58, 53] := by decide

/-- Claim C4 is right about the intent but the code does not guarantee it
(code bug): the claim requires exactly two frames D then X for the first
datagram and exactly one further frame per later datagram, with no
destination re-sent.  Under the interleaving `udpSchedDoubleDst` of two
back-to-back datagrams, both goroutines read `first == false` before either
writes it (lines 254-255), so both send a destination frame: the stream
observes four frames D, D, X, Y instead of the required three D, X, Y — the
destination is sent twice. -/
theorem claimC4 :
    (udpRun [udpDgramA, udpDgramB] udpSchedDoubleDst).shared.frames
        = [[100, 58, 53], [100, 58, 53], [1, 2], [3, 4]]
      ∧ ((udpRun [udpDgramA, udpDgramB] udpSchedDoubleDst).shared.frames).count
          [100, 58, 53] = 2 := by decide

/-- Deadline set by `udpLn.SetReadDeadline(time.Now().Add(time.Second * 600))`, line 168:
executed once, before the read loop, so the deadline is the absolute instant
600 seconds after association start.  Time is modelled in whole seconds. -/
def udpReadDeadline (startTime : Nat) : Nat := startTime + 600

/-- Timing of the `udpLn.ReadFrom` loop under Go deadline semantics: a read
begun at instant `t` returns as soon as the next datagram (arrival instants
listed in order) is available, provided that happens before the deadline;
with no datagram available before the deadline the read fails with a timeout
once the wall clock reaches the deadline.  The deadline is never re-armed.
Returns the instant at which the loop's read fails. -/
def udpReadLoopFailTime (deadline : Nat) : Nat → List Nat → Nat
  | _, [] => deadline
  | t, a :: as =>
    if max a t < deadline then udpReadLoopFailTime deadline (max a t) as else deadline

/-- The instant at which a UDP association's read loop fails, for an
association started at `startTime` whose client datagrams arrive at the
instants `arrivals`. -/
def udpSessionFailTime (startTime : Nat) (arrivals : List Nat) : Nat :=
  udpReadLoopFailTime (udpReadDeadline startTime) startTime arrivals

/-- Counterexample to claim C7 as stated: for an association started at
instant 0 receiving datagrams steadily, the last at instant 599, the read
loop still fails at instant 600 — only 1 second after the last receipt, not
after 600 seconds of silence; so the deadline is not an idle timeout, and an
association that keeps receiving datagrams is still torn down. -/
theorem claimC7_counterexample :
    udpSessionFailTime 0 [100, 200, 300, 400, 500, 599] = 600
      ∧ 599 < 600 ∧ 600 < 599 + 600 := by decide

/-- Claim C7 (amended): the UDP datagram socket's read deadline is absolute,
not idle: it is set exactly once, at association start, to 600 seconds later,
and the read loop fails exactly 600 seconds after association start,
regardless of how many datagrams arrive or when — after which the association
is torn down.  An association that keeps receiving datagrams is still torn
down at the 600-second mark. -/
theorem claimC7 (startTime : Nat) (arrivals : List Nat) :
    udpSessionFailTime startTime arrivals = startTime + 600 := by
  suffices h : ∀ (as : List Nat) (d t : Nat), udpReadLoopFailTime d t as = d by
    exact h arrivals _ _
  intro as
  induction as with
  | nil => intro d t; rfl
  | cons a as ih =>
    intro d t
    by_cases h : max a t < d <;> simp [udpReadLoopFailTime, h, ih]

/-- Claim C8: for every bound local port p < 65536, the SOCKS5 UDP ASSOCIATE
reply is the 10-byte sequence 0x05 0x00 0x00 0x01, four zero host bytes, then
the two bytes of p in big-endian order; the int16 narrowing preserves the
exact two-byte big-endian encoding for all ports, including those at or above
32768. -/
theorem claimC8 (p : Nat) (hp : p < 65536) :
    udpAssociateReply p = [5, 0, 0, 1, 0, 0, 0, 0, p / 256, p % 256] := by
  have hbits : (int16OfNat p % 65536).toNat = p := by
    unfold int16OfNat
    split <;> omega
  simp only [udpAssociateReply, bigEndian16, hbits]
  rfl

/-- Witness for C8 at the concrete port 40000 (a port at or above 32768). -/
theorem claimC8_witness :
    40000 < 65536 ∧ udpAssociateReply 40000 = [5, 0, 0, 1, 0, 0, 0, 0, 156, 64] := by
  refine ⟨by norm_num, ?_⟩
  have h := claimC8 40000 (by norm_num)
  simpa using h

end GrpcSocks
